import Mathlib

/-!
Verification of the ricela charging/monitoring service core.

The definitions below are a shallow embedding of the Go source of the
repository d4l3k/ricela: the telemetry normalizer (processCounter,
counterStrs, setCounter), the adaptive poll scheduler (pollTime), the
charging automation state machine (monitorVehicle with its stopCharging
and startNearbyCharging triggers), the retry executor (backoff.Retry as
used by chargepoint Client.StartSession), the supervisor (errgroup in
RiceLa.run), and the geofence matcher (ChargePointCharger.DistanceInMeters
over the s2 haversine formula).

Go float64 values that only ever flow through exact comparisons are
modelled as rationals; the geographic distance computation is modelled
over the real numbers.
-/

namespace Ricela

/-! ## JSON telemetry values

The Tesla API response is decoded into a Go map of dynamic values
(map of string to interface).  A dynamic JSON value is a mapping, a
number (float64 after unmarshalling), a boolean, a string, or null.
The numeric int/int32/int64/float32 cases of processCounter are all
subsumed by the num constructor since json.Unmarshal into interface
only ever produces float64 numbers. -/

mutual

inductive JsonValue where
  | obj (fields : JsonFields)
  | num (v : Rat)
  | bool (b : Bool)
  | str (s : String)
  | null

inductive JsonFields where
  | nil
  | cons (key : String) (value : JsonValue) (rest : JsonFields)

end

/-- Go type test: whether a dynamic value has dynamic type float64. -/
def JsonValue.isNum : JsonValue → Bool
  | .num _ => true
  | _ => false

/-- Go type assertion with dropped ok flag, as in
pilotCurrent, _ := data.ChargeState.ChargerPilotCurrent.(float64):
yields the value when the dynamic type is float64 and the zero value 0
otherwise (also for nil, i.e. an absent field). -/
def assertFloat64 : JsonValue → Rat
  | .num v => v
  | _ => 0

/-! ## String to number resolution (counterStrs, strconv.ParseFloat) -/

/-- The fixed symbolic table counterStrs from the source, as a lookup
function (Go map with string keys). -/
def counterStrs : String → Option Rat
  | "--" => some (-1)
  | "NONE" => some (-1)
  | "PRESENT" => some 1
  | "ENGAGED" => some 1
  | "DISENGAGED" => some 0
  | "LATCHED" => some 1
  | "NOMINAL" => some 1
  | "FAULT" => some 0
  | "ERROR" => some 0
  | "DRIVE" => some 2
  | "PARKED" => some 1
  | "REVERSE" => some 3
  | "NEUTRAL" => some 4
  | "On" => some 1
  | "Off" => some 0
  | "Stopped" => some 0
  | "IDLE" => some 0
  | "ACTIVE" => some 1
  | "on" => some 1
  | "off" => some 0
  | "yes" => some 1
  | "no" => some 0
  | "" => some (-1)
  | _ => none

/-- Value of a digit string, most significant digit first. -/
def digitsVal (cs : List Char) : Nat :=
  cs.foldl (fun acc c => acc * 10 + (c.toNat - 48)) 0

/-- Strip a leading sign character, returning whether it was a minus. -/
def splitSign : List Char → Bool × List Char
  | '-' :: cs => (true, cs)
  | '+' :: cs => (false, cs)
  | cs => (false, cs)

/-- Model of strconv.ParseFloat (bit size 64) on the decimal literal
forms: optional sign, integer digits, optional fraction, optional
decimal exponent, with at least one mantissa digit and no trailing
characters.  The hexadecimal, infinity and NaN forms accepted by Go are
not exactly representable as rationals and do not occur in the symbolic
table or in the telemetry strings this program consumes. -/
def parseFloat? (s : String) : Option Rat :=
  let p1 := splitSign s.toList
  let neg := p1.1
  let cs1 := p1.2
  let ip := cs1.takeWhile Char.isDigit
  let cs2 := cs1.dropWhile Char.isDigit
  let p2 : List Char × List Char :=
    match cs2 with
    | '.' :: rest => (rest.takeWhile Char.isDigit, rest.dropWhile Char.isDigit)
    | _ => ([], cs2)
  let fp := p2.1
  let cs3 := p2.2
  if ip.isEmpty && fp.isEmpty then none
  else
    let mant0 : Rat := (digitsVal ip : Rat) + (digitsVal fp : Rat) / ((10 : Rat) ^ fp.length)
    let mant : Rat := if neg then -mant0 else mant0
    match cs3 with
    | [] => some mant
    | e :: rest =>
      if e == 'e' || e == 'E' then
        let p3 := splitSign rest
        let eneg := p3.1
        let rest1 := p3.2
        let ed := rest1.takeWhile Char.isDigit
        let rest2 := rest1.dropWhile Char.isDigit
        if ed.isEmpty || !rest2.isEmpty then none
        else if eneg then some (mant / (10 : Rat) ^ digitsVal ed)
        else some (mant * (10 : Rat) ^ digitsVal ed)
      else none

/-! ## Telemetry Snapshot Normalizer (processCounter)

In the source, each resolvable leaf results in one setCounter call into
the shared gauge map and contributes 1 to the returned count.  The model
returns the list of performed setCounter calls (key and value, in
recursion order; the Go map iteration order is unspecified, which only
permutes the list) together with the returned count. -/

mutual

def processCounter (key : String) : JsonValue → List (String × Rat) × Nat
  | .obj fields => processFields key fields
  | .num v => ([(key, v)], 1)
  | .bool b => if b then ([(key, 1)], 1) else ([(key, 0)], 1)
  | .str s =>
    match parseFloat? s with
    | some f => ([(key, f)], 1)
    | none =>
      match counterStrs s with
      | some f => ([(key, f)], 1)
      | none => ([], 0)
  | .null => ([(key, 0)], 1)

def processFields (key : String) : JsonFields → List (String × Rat) × Nat
  | .nil => ([], 0)
  | .cons k v rest =>
    let r := processCounter (key ++ ":" ++ k) v
    let rs := processFields key rest
    (r.1 ++ rs.1, r.2 + rs.2)

end

/-! ## Metric Registry (setCounter)

The gauge map guarded by the mutex in RiceLa.mu is modelled as an
association list in insertion order; the gauge object itself is its
current value.  setCounter models one critical section: the existence
check, the creation on absence, and the Set of the value happen as a
single atomic step, exactly as the source performs them under one
mu.Lock. -/

def containsKey : List (String × Rat) → String → Bool
  | [], _ => false
  | (k, _) :: rest, key => k == key || containsKey rest key

def lookupGauge : List (String × Rat) → String → Option Rat
  | [], _ => none
  | (k, v) :: rest, key => if k == key then some v else lookupGauge rest key

/-- Set the value of every gauge entry stored under the given key
(there is at most one when keys are unduplicated). -/
def setValue : List (String × Rat) → String → Rat → List (String × Rat)
  | [], _, _ => []
  | (k, w) :: rest, key, v =>
    if k == key then (k, v) :: setValue rest key v else (k, w) :: setValue rest key v

/-- One setCounter call: look the key up in the gauge map; if absent,
create the gauge (appending a new entry); then set its value. -/
def setCounter (gauges : List (String × Rat)) (key : String) (v : Rat) : List (String × Rat) :=
  if containsKey gauges key then setValue gauges key v
  else gauges ++ [(key, v)]

/-- Number of gauge entries stored under a key. -/
def countKey (gauges : List (String × Rat)) (key : String) : Nat :=
  (gauges.filter (fun e => e.1 == key)).length

/-! ## Vehicle data model -/

/-- Charging related snapshot fields read by the state machine.
ChargerPilotCurrent is a dynamic value in the tesla library
(interface), hence modelled as a JsonValue. -/
structure ChargeState where
  chargingState : String
  chargerPilotCurrent : JsonValue
  chargePortDoorOpen : Bool

structure VehicleState where
  locked : Bool

structure ClimateState where
  isClimateOn : Bool

/-- Drive state: ShiftState is dynamic in the tesla library (nil or a
string), latitude and longitude are float64 degrees. -/
structure DriveState where
  shiftState : Option String
  latitude : Rat
  longitude : Rat

/-- The slice of VehicleData that the monitoring logic reads. -/
structure VehicleData where
  chargeState : ChargeState
  vehicleState : VehicleState
  climateState : ClimateState
  driveState : DriveState

def StateCharging : String := "Charging"

def StateComplete : String := "Complete"

/-! ## Adaptive Poll Scheduler (pollTime) -/

/-- Default value of the standbyPollTime flag, in nanoseconds (1 minute). -/
def standbyPollTime : Nat := 60000000000

/-- Default value of the drivePollTime flag, in nanoseconds (15 seconds). -/
def drivePollTime : Nat := 15000000000

/-- Default value of the activePollTime flag, in nanoseconds (5 seconds). -/
def activePollTime : Nat := 5000000000

/-- The poll scheduler pollTime from the source, at the default flag
values: rule 1 (active) when unlocked, shift state nil or P or R, and
charge port closed; else rule 2 (drive) when shift state D or R or N or
climate on; else standby. -/
def pollTime (data : VehicleData) : Nat :=
  if !data.vehicleState.locked
      && (data.driveState.shiftState == none
        || data.driveState.shiftState == some "P"
        || data.driveState.shiftState == some "R")
      && !data.chargeState.chargePortDoorOpen then
    activePollTime
  else if data.driveState.shiftState == some "D"
      || data.driveState.shiftState == some "R"
      || data.driveState.shiftState == some "N"
      || data.climateState.isClimateOn then
    drivePollTime
  else
    standbyPollTime

/-! ## Charging network data (chargepoint client) -/

/-- A station reported by the chargepoint user status. -/
structure Station where
  deviceID : Int
  lat : Rat
  lon : Rat
  name : String

/-- The charging part of the chargepoint user status. -/
structure Charging where
  currentTimeUTC : Int
  sessionID : Int
  startTimeUTC : Int
  state : String
  stations : List Station

structure UserStatus where
  charging : Charging

/-! ## Charging Automation State Machine (monitorVehicle)

monitorVehicle keeps the previous snapshot in a local variable and the
charging flag behind the mutex (setCharging).  One loop iteration after
a successful poll is modelled as a step function from the monitor state
and the polled snapshot to the new state, the list of charging network
calls performed (the observable events), and the error with which the
loop would return, if any.  The remote results of the chargepoint
client calls are supplied by an environment record: the user status
query result, the per-station stop result, and the net result of the
startNearbyCharging call (whose internal geofence matching is modelled
separately below). -/

structure MonitorState where
  prevData : Option VehicleData
  charging : Bool

/-- Loop state at the top of monitorVehicle: nil previous snapshot and
the zero-valued charging flag. -/
def initialState : MonitorState := ⟨none, false⟩

inductive MonitorEvent where
  | userStatusQuery
  | stopSessionCall (sessionID : Int) (deviceID : Int)
  | startAttempt
deriving DecidableEq

/-- Results of the remote charging-network calls a step may perform. -/
structure TriggerEnv where
  userStatus : Except String UserStatus
  stopSession : Int → Int → Option String
  startResult : Option String

/-- Environment in which every remote call succeeds and the user status
query returns the given status. -/
def okEnvWith (us : UserStatus) : TriggerEnv :=
  ⟨.ok us, fun _ _ => none, none⟩

/-- The loop body of stopCharging: one StopSession call per station of
the user status, stopping at the first error. -/
def stopStations (env : TriggerEnv) (sessionID : Int) :
    List Station → List MonitorEvent × Option String
  | [] => ([], none)
  | st :: rest =>
    match env.stopSession sessionID st.deviceID with
    | some e => ([.stopSessionCall sessionID st.deviceID], some e)
    | none =>
      let r := stopStations env sessionID rest
      (.stopSessionCall sessionID st.deviceID :: r.1, r.2)

/-- stopCharging: query the chargepoint user status, then stop the
session at every station it reports. -/
def stopChargingRun (env : TriggerEnv) : List MonitorEvent × Option String :=
  match env.userStatus with
  | .error e => ([.userStatusQuery], some e)
  | .ok us =>
    let r := stopStations env us.charging.sessionID us.charging.stations
    (.userStatusQuery :: r.1, r.2)

/-- The rising-edge condition of the start trigger, exactly as tested in
monitorVehicle: prevData != nil, previous charge port closed, current
charge port open. -/
def startCond (prevData : Option VehicleData) (data : VehicleData) : Bool :=
  match prevData with
  | some p => !p.chargeState.chargePortDoorOpen && data.chargeState.chargePortDoorOpen
  | none => false

/-- One iteration of monitorVehicle after a successful poll of data:
first the stop trigger (charging state Complete and pilot current
above 1), then the start trigger (rising edge of the charge port
flag), then unconditionally setCharging and the replacement of the
previous snapshot.  An error from either trigger returns from the loop
at once, leaving the remaining actions unexecuted. -/
def monitorStep (env : TriggerEnv) (s : MonitorState) (data : VehicleData) :
    MonitorState × List MonitorEvent × Option String :=
  let pilotCurrent := assertFloat64 data.chargeState.chargerPilotCurrent
  let stopR : List MonitorEvent × Option String :=
    if data.chargeState.chargingState == StateComplete && decide (pilotCurrent > 1) then
      stopChargingRun env
    else ([], none)
  match stopR.2 with
  | some e => (s, stopR.1, some e)
  | none =>
    let startR : List MonitorEvent × Option String :=
      if startCond s.prevData data then ([.startAttempt], env.startResult)
      else ([], none)
    match startR.2 with
    | some e => (s, stopR.1 ++ startR.1, some e)
    | none =>
      (⟨some data, data.chargeState.chargingState == StateCharging⟩,
        stopR.1 ++ startR.1, none)

/-- The events of each successive loop iteration over a sequence of
successfully polled snapshots; a step error terminates the loop. -/
def monitorPolls (env : TriggerEnv) (s : MonitorState) :
    List VehicleData → List (List MonitorEvent)
  | [] => []
  | d :: rest =>
    let r := monitorStep env s d
    match r.2.2 with
    | some _ => [r.2.1]
    | none => r.2.1 :: monitorPolls env r.1 rest

/-- The value monitorVehicle returns over a sequence of successfully
polled snapshots: the first step error, or nil once the snapshot
sequence is exhausted (the loop observes the cancelled context at its
next wait point and returns nil). -/
def monitorLoopResult (env : TriggerEnv) (s : MonitorState) :
    List VehicleData → Option String
  | [] => none
  | d :: rest =>
    let r := monitorStep env s d
    match r.2.2 with
    | some e => some e
    | none => monitorLoopResult env r.1 rest

/-- Number of start attempts (startNearbyCharging invocations) in each
poll of a run from the initial state, all remote calls succeeding. -/
def startAttemptsPerPoll (us : UserStatus) (snaps : List VehicleData) : List Nat :=
  (monitorPolls (okEnvWith us) initialState snaps).map
    fun evts => evts.count MonitorEvent.startAttempt

/-- Number of user status queries (the stop-status query of
stopCharging) in each poll of a run from the initial state, all remote
calls succeeding. -/
def stopQueriesPerPoll (us : UserStatus) (snaps : List VehicleData) : List Nat :=
  (monitorPolls (okEnvWith us) initialState snaps).map
    fun evts => evts.count MonitorEvent.userStatusQuery

/-- States the claimed behaviour in the words of the spec: a start
attempt is made at a poll exactly when a previous snapshot exists, the
previous charge-port-open flag is false, and the current flag is true;
the result lists, per poll, how many attempts that rule fires. -/
def specStartAttempts : Option VehicleData → List VehicleData → List Nat
  | _, [] => []
  | prev, d :: rest =>
    (match prev with
      | some p =>
        if p.chargeState.chargePortDoorOpen = false
            ∧ d.chargeState.chargePortDoorOpen = true then 1 else 0
      | none => 0) :: specStartAttempts (some d) rest

/-! ## Multi-Vehicle Monitor Supervisor (RiceLa.run)

RiceLa.run starts every task (the vehicle discovery goroutine, one
monitorVehicle goroutine per vehicle, the sysmetrics, chargepoint and
car server pollers, the HTTP listener, the shutdown waiter) in one
errgroup created with errgroup.WithContext, and returns eg.Wait().
Per the errgroup contract, the first goroutine to return a non-nil
error cancels the shared context and that error is the one Wait
returns; every other goroutine observes the cancelled context at its
next wait point.  The goroutine results are modelled as a list in
completion order. -/

/-- eg.Wait over the goroutine results in completion order: the first
non-nil error, or nil. -/
def firstError : List (Option String) → Option String
  | [] => none
  | none :: rest => firstError rest
  | some e :: _ => some e

/-- The value RiceLa.run returns: eg.Wait over all of its goroutines. -/
def supervisorResult (results : List (Option String)) : Option String :=
  firstError results

/-! ## Resilient remote call executor (backoff.Retry as used)

chargepoint Client.StartSession wraps the session acknowledgement
request in backoff.Retry with an exponential backoff capped by a one
minute MaxElapsedTime (monitorVehicle wraps getVehicleData the same
way).  backoff.Retry retries the operation on every non-nil error,
sleeping between attempts, until the operation succeeds, the error is
a backoff PermanentError, or NextBackOff reports Stop (the elapsed
budget is exhausted), in which case the last error is returned.  The
budget is modelled as the number of backoff waits remaining before
NextBackOff returns Stop; the operation is modelled as a function from
the attempt index to its error result. -/

/-- Errors produced by the chargepoint operations: a definitive
business rejection (an ErrorResponse with a non-empty message, as
surfaced by makeRequest) or anything else (transport, decode, status). -/
inductive CPOutcome where
  | business (id : Int) (category : String) (msg : String)
  | transient (msg : String)
deriving DecidableEq

def isBusinessRejection : CPOutcome → Bool
  | .business _ _ _ => true
  | .transient _ => false

/-- The backoff library retries any error that is not wrapped in
backoff.Permanent; no call site in this repository ever wraps an error,
so the permanence test is false on every error the operations return. -/
def errIsPermanent (_ : CPOutcome) : Bool := false

/-- backoff.Retry: run the operation; on success return nil; on a
permanent error return it; otherwise, if backoff waits remain, retry,
else return the last error.  Returns the total number of attempts made
together with the final result. -/
def backoffRetry (op : Nat → Option CPOutcome) : Nat → Nat → Nat × Option CPOutcome
  | attempt, fuel =>
    match op attempt with
    | none => (attempt + 1, none)
    | some e =>
      if errIsPermanent e then (attempt + 1, some e)
      else
        match fuel with
        | 0 => (attempt + 1, some e)
        | f + 1 => backoffRetry op (attempt + 1) f

/-! ## Charger Registry and Geofence Matcher

startNearbyCharging converts the drive state position to an s2 LatLng
and starts the first charger of knownChargers whose DistanceInMeters is
below 20.  The s2 geometry and the distance computation are idealized
over the real numbers (the source computes with float64). -/

/-- A geographic position in radians, as the s2 LatLng used by the
source. -/
structure LatLng where
  lat : ℝ
  lng : ℝ

/-- s2.LatLngFromDegrees: degrees converted to radians. -/
noncomputable def latLngFromDegrees (lat lng : ℝ) : LatLng :=
  ⟨lat * Real.pi / 180, lng * Real.pi / 180⟩

/-- Go math.Atan2 over the reals (two-argument arctangent). -/
noncomputable def atan2 (y x : ℝ) : ℝ :=
  if 0 < x then Real.arctan (y / x)
  else if x = 0 then
    if 0 < y then Real.pi / 2
    else if y < 0 then -(Real.pi / 2)
    else 0
  else if 0 ≤ y then Real.arctan (y / x) + Real.pi
  else Real.arctan (y / x) - Real.pi

/-- s2 LatLng.Distance: the great-circle angle between two positions by
the haversine formula, idealized over the reals. -/
noncomputable def latLngDistance (a b : LatLng) : ℝ :=
  let dlat := Real.sin (0.5 * (b.lat - a.lat))
  let dlng := Real.sin (0.5 * (b.lng - a.lng))
  let x := dlat * dlat + dlng * dlng * Real.cos a.lat * Real.cos b.lat
  2 * atan2 (Real.sqrt x) (Real.sqrt (max 0 (1 - x)))

/-- A charger of the Charger interface: its DistanceInMeters method and
the device its Start method starts a session at. -/
structure Charger where
  distanceInMeters : LatLng → ℝ
  startDeviceID : Int

structure ChargePointCharger where
  deviceID : Int
  latlng : LatLng

/-- ChargePointCharger.DistanceInMeters: the great-circle angle scaled
by the fixed Earth radius of 6371000 meters. -/
noncomputable def ChargePointCharger.distanceInMeters
    (c : ChargePointCharger) (a : LatLng) : ℝ :=
  6371000 * latLngDistance c.latlng a

/-- A ChargePointCharger seen through the Charger interface. -/
noncomputable def ChargePointCharger.toCharger (c : ChargePointCharger) : Charger :=
  ⟨fun a => c.distanceInMeters a, c.deviceID⟩

/-- The static charger registry knownChargers of the source. -/
noncomputable def knownChargers : List Charger :=
  [ChargePointCharger.toCharger
    ⟨1947511, latLngFromDegrees 47.630007 (-122.133969)⟩]

/-- The charger selection loop of startNearbyCharging, over an
arbitrary registry and threshold: the first charger in registration
order whose distance to the position is strictly below the threshold. -/
noncomputable def nearestWithin : List Charger → LatLng → ℝ → Option Charger
  | [], _, _ => none
  | c :: rest, pos, threshold =>
    haveI := Classical.propDecidable (c.distanceInMeters pos < threshold)
    if c.distanceInMeters pos < threshold then some c
    else nearestWithin rest pos threshold

/-- The charger startNearbyCharging starts a session at, given the
drive state position in degrees: the first known charger within the
fixed 20 meter threshold, if any. -/
noncomputable def startNearbyChargingTarget (latitude longitude : ℝ) : Option Charger :=
  nearestWithin knownChargers (latLngFromDegrees latitude longitude) 20

/-! ## Helper lemmas -/

/-- Whether an event is a StopSession call. -/
def MonitorEvent.isStopSessionCall : MonitorEvent → Bool
  | .stopSessionCall _ _ => true
  | _ => false

@[simp] theorem okEnvWith_userStatus (us : UserStatus) :
    (okEnvWith us).userStatus = .ok us := rfl

@[simp] theorem okEnvWith_stopSession (us : UserStatus) (sid did : Int) :
    (okEnvWith us).stopSession sid did = none := rfl

@[simp] theorem okEnvWith_startResult (us : UserStatus) :
    (okEnvWith us).startResult = none := rfl

theorem stopStations_okEnv (us : UserStatus) (sid : Int) (sts : List Station) :
    stopStations (okEnvWith us) sid sts
      = (sts.map (fun st => MonitorEvent.stopSessionCall sid st.deviceID), none) := by
  induction sts with
  | nil => rfl
  | cons st rest ih => simp [stopStations, ih]

theorem stopChargingRun_okEnv (us : UserStatus) :
    stopChargingRun (okEnvWith us)
      = (MonitorEvent.userStatusQuery ::
          us.charging.stations.map
            (fun st => MonitorEvent.stopSessionCall us.charging.sessionID st.deviceID),
        none) := by
  simp [stopChargingRun, stopStations_okEnv]

theorem monitorStep_okEnv (us : UserStatus) (s : MonitorState) (d : VehicleData) :
    monitorStep (okEnvWith us) s d
      = (⟨some d, d.chargeState.chargingState == StateCharging⟩,
        (if d.chargeState.chargingState == StateComplete
              && decide (assertFloat64 d.chargeState.chargerPilotCurrent > 1) then
          MonitorEvent.userStatusQuery ::
            us.charging.stations.map
              (fun st => MonitorEvent.stopSessionCall us.charging.sessionID st.deviceID)
        else [])
          ++ (if startCond s.prevData d then [MonitorEvent.startAttempt] else []),
        none) := by
  unfold monitorStep
  cases h1 : d.chargeState.chargingState == StateComplete
      && decide (assertFloat64 d.chargeState.chargerPilotCurrent > 1) <;>
    cases h2 : startCond s.prevData d <;>
      simp [h1, h2, stopChargingRun_okEnv]

theorem monitorPolls_okEnv_cons (us : UserStatus) (s : MonitorState) (d : VehicleData)
    (rest : List VehicleData) :
    monitorPolls (okEnvWith us) s (d :: rest)
      = (monitorStep (okEnvWith us) s d).2.1 ::
        monitorPolls (okEnvWith us)
          ⟨some d, d.chargeState.chargingState == StateCharging⟩ rest := by
  simp [monitorPolls, monitorStep_okEnv]

theorem count_startAttempt_stopEvents (us : UserStatus) (b : Bool) :
    ((if b then
        MonitorEvent.userStatusQuery ::
          us.charging.stations.map
            (fun st => MonitorEvent.stopSessionCall us.charging.sessionID st.deviceID)
      else []).count MonitorEvent.startAttempt) = 0 := by
  cases b <;> simp [List.count_eq_zero]

theorem startCounts_go (us : UserStatus) (snaps : List VehicleData) :
    ∀ (prev : Option VehicleData) (b : Bool),
    (monitorPolls (okEnvWith us) ⟨prev, b⟩ snaps).map
        (fun evts => evts.count MonitorEvent.startAttempt)
      = specStartAttempts prev snaps := by
  induction snaps with
  | nil => intro prev b; rfl
  | cons d rest ih =>
    intro prev b
    rw [monitorPolls_okEnv_cons]
    simp only [List.map_cons, specStartAttempts, monitorStep_okEnv, List.cons.injEq]
    refine ⟨?_, ih (some d) _⟩
    rw [List.count_append, count_startAttempt_stopEvents]
    cases prev with
    | none => simp [startCond]
    | some p =>
      cases hp : p.chargeState.chargePortDoorOpen <;>
        cases hd : d.chargeState.chargePortDoorOpen <;>
          simp [startCond, hp, hd]

/-! ## Concrete test fixtures -/

/-- A snapshot whose charge-port-open flag is the given boolean, not
charging, with no pilot current reported. -/
def portOpenSnap (b : Bool) : VehicleData :=
  ⟨⟨"Disconnected", .null, b⟩, ⟨true⟩, ⟨false⟩, ⟨none, 0, 0⟩⟩

/-- A user status reporting no active stations. -/
def emptyStatus : UserStatus := ⟨⟨0, 77, 0, "in_use", []⟩⟩

/-- A snapshot with charging state Complete and pilot current 5. -/
def completeSnap : VehicleData :=
  ⟨⟨"Complete", .num 5, true⟩, ⟨true⟩, ⟨false⟩, ⟨none, 0, 0⟩⟩

/-- A user status reporting one active station. -/
def oneStationStatus : UserStatus := ⟨⟨0, 77, 0, "in_use", [⟨123, 0, 0, "station"⟩]⟩⟩

/-- A snapshot with charging state Complete whose pilot current is the
string "16" rather than a number. -/
def nonNumericPilotSnap : VehicleData :=
  ⟨⟨"Complete", .str "16", true⟩, ⟨true⟩, ⟨false⟩, ⟨none, 0, 0⟩⟩

theorem filter_stop_map (sid : Int) (sts : List Station) :
    (sts.map (fun st => MonitorEvent.stopSessionCall sid st.deviceID)).filter
        MonitorEvent.isStopSessionCall
      = sts.map (fun st => MonitorEvent.stopSessionCall sid st.deviceID) := by
  induction sts with
  | nil => rfl
  | cons st rest ih => simp [MonitorEvent.isStopSessionCall, ih]

/-! ## Claims about the charging automation state machine -/

/-- C1: the charging start trigger fires only on a rising edge of the
charge-port-open flag.  In every run of the monitoring loop the number
of startNearbyCharging invocations at each poll equals the rule of the
spec (an attempt exactly when a previous snapshot exists, its flag is
false, and the current flag is true), and the port-open sequence
false, true, true, false, true produces exactly two start attempts, at
poll indices 1 and 4. -/
theorem c1_start_trigger_rising_edge :
    (∀ (us : UserStatus) (snaps : List VehicleData),
        startAttemptsPerPoll us snaps = specStartAttempts none snaps)
    ∧ startAttemptsPerPoll emptyStatus
        ([false, true, true, false, true].map portOpenSnap) = [0, 1, 0, 0, 1]
    ∧ (startAttemptsPerPoll emptyStatus
        ([false, true, true, false, true].map portOpenSnap)).sum = 2 := by
  refine ⟨fun us snaps => startCounts_go us snaps none false, by decide, by decide⟩

/-- C2: the charging stop trigger is level-triggered.  On every poll
the number of user status queries is 1 exactly when the snapshot has
charging state Complete and pilot current above 1 — independent of the
previous snapshot — and on such a poll one stop-session call is issued
per station the user status reports; three consecutive qualifying
polls produce three stop-status queries. -/
theorem c2_stop_trigger_level_triggered :
    (∀ (us : UserStatus) (s : MonitorState) (d : VehicleData),
        ((monitorStep (okEnvWith us) s d).2.1).count MonitorEvent.userStatusQuery
          = if d.chargeState.chargingState = StateComplete
                ∧ assertFloat64 d.chargeState.chargerPilotCurrent > 1 then 1 else 0)
    ∧ (∀ (us : UserStatus) (s : MonitorState) (d : VehicleData),
        ((monitorStep (okEnvWith us) s d).2.1).filter MonitorEvent.isStopSessionCall
          = if d.chargeState.chargingState = StateComplete
                ∧ assertFloat64 d.chargeState.chargerPilotCurrent > 1 then
              us.charging.stations.map
                (fun st => MonitorEvent.stopSessionCall us.charging.sessionID st.deviceID)
            else [])
    ∧ stopQueriesPerPoll oneStationStatus [completeSnap, completeSnap, completeSnap]
        = [1, 1, 1]
    ∧ (stopQueriesPerPoll oneStationStatus
        [completeSnap, completeSnap, completeSnap]).sum = 3 := by
  refine ⟨?_, ?_, by decide, by decide⟩
  · intro us s d
    rw [monitorStep_okEnv, List.count_append]
    by_cases h : d.chargeState.chargingState = StateComplete
        ∧ assertFloat64 d.chargeState.chargerPilotCurrent > 1
    · rcases h with ⟨h1, h2⟩
      cases hs : startCond s.prevData d <;>
        simp [h1, h2, hs, List.count_eq_zero]
    · have hb : (d.chargeState.chargingState == StateComplete
          && decide (assertFloat64 d.chargeState.chargerPilotCurrent > 1)) = false := by
        rcases Decidable.not_and_iff_or_not.mp h with h1 | h2
        · simp [h1]
        · simp [h2]
      cases hs : startCond s.prevData d <;> simp [hb, h, hs]
  · intro us s d
    rw [monitorStep_okEnv, List.filter_append]
    by_cases h : d.chargeState.chargingState = StateComplete
        ∧ assertFloat64 d.chargeState.chargerPilotCurrent > 1
    · rcases h with ⟨h1, h2⟩
      cases hs : startCond s.prevData d <;>
        simp [h1, h2, hs, MonitorEvent.isStopSessionCall, filter_stop_map]
    · have hb : (d.chargeState.chargingState == StateComplete
          && decide (assertFloat64 d.chargeState.chargerPilotCurrent > 1)) = false := by
        rcases Decidable.not_and_iff_or_not.mp h with h1 | h2
        · simp [h1]
        · simp [h2]
      cases hs : startCond s.prevData d <;>
        simp [hb, h, hs, MonitorEvent.isStopSessionCall]

/-- C3: on every poll after which the loop does not return an error,
the monitor state machine sets the shared charging flag to whether the
charging state equals Charging, and replaces the previous snapshot
with the current one, regardless of whether either trigger fired. -/
theorem c3_flag_and_prev_update (env : TriggerEnv) (s : MonitorState) (d : VehicleData)
    (h : (monitorStep env s d).2.2 = none) :
    (monitorStep env s d).1.charging = (d.chargeState.chargingState == StateCharging)
    ∧ (monitorStep env s d).1.prevData = some d := by
  cases hcond : (d.chargeState.chargingState == StateComplete
      && decide (assertFloat64 d.chargeState.chargerPilotCurrent > 1)) <;>
    cases hstop : (stopChargingRun env).2 <;>
      cases hstart : startCond s.prevData d <;>
        cases henvstart : env.startResult <;>
          simp [monitorStep, hcond, hstop, hstart, henvstart] at h ⊢

/-- Witness for C3 at a concrete successful poll. -/
theorem c3_witness :
    (monitorStep (okEnvWith emptyStatus) initialState (portOpenSnap false)).2.2 = none
    ∧ ((monitorStep (okEnvWith emptyStatus) initialState (portOpenSnap false)).1.charging
        = ((portOpenSnap false).chargeState.chargingState == StateCharging)
      ∧ (monitorStep (okEnvWith emptyStatus) initialState (portOpenSnap false)).1.prevData
        = some (portOpenSnap false)) :=
  ⟨by decide,
    c3_flag_and_prev_update (okEnvWith emptyStatus) initialState (portOpenSnap false)
      (by decide)⟩

/-- C10: when the pilot-current field of a snapshot is absent (null) or
not a numeric value, the dropped-ok type assertion yields 0, so the
stop trigger does not fire on that poll: no user status query and no
stop-session call is issued, even when the charging state is Complete. -/
theorem c10_pilot_nonnumeric_no_stop (env : TriggerEnv) (s : MonitorState) (d : VehicleData)
    (h : d.chargeState.chargerPilotCurrent.isNum = false) :
    ((monitorStep env s d).2.1).count MonitorEvent.userStatusQuery = 0
    ∧ ((monitorStep env s d).2.1).filter MonitorEvent.isStopSessionCall = []
    ∧ assertFloat64 d.chargeState.chargerPilotCurrent = 0 := by
  have h0 : assertFloat64 d.chargeState.chargerPilotCurrent = 0 := by
    cases hv : d.chargeState.chargerPilotCurrent
    case num q => rw [hv] at h; simp [JsonValue.isNum] at h
    all_goals simp [assertFloat64]
  have hlt : ¬ ((1 : Rat) < 0) := by norm_num
  cases hstart : startCond s.prevData d <;> cases henvstart : env.startResult <;>
    simp [monitorStep, hstart, henvstart, MonitorEvent.isStopSessionCall, h0, hlt]

/-- Witness for C10 at a snapshot whose charging state is Complete but
whose pilot current is the string "16". -/
theorem c10_witness :
    nonNumericPilotSnap.chargeState.chargerPilotCurrent.isNum = false
    ∧ nonNumericPilotSnap.chargeState.chargingState = StateComplete
    ∧ (((monitorStep (okEnvWith oneStationStatus) initialState
          nonNumericPilotSnap).2.1).count MonitorEvent.userStatusQuery = 0
      ∧ ((monitorStep (okEnvWith oneStationStatus) initialState
          nonNumericPilotSnap).2.1).filter MonitorEvent.isStopSessionCall = []
      ∧ assertFloat64 nonNumericPilotSnap.chargeState.chargerPilotCurrent = 0) :=
  ⟨by decide, by decide,
    c10_pilot_nonnumeric_no_stop (okEnvWith oneStationStatus) initialState
      nonNumericPilotSnap (by decide)⟩

/-! ## Claim C4: scheduler priority -/

/-- A snapshot that satisfies rule 1 of the scheduler (unlocked, shift
Reverse, charge port closed) and also a rule 2 condition (shift
Reverse, climate on). -/
def reverseClimateSnap : VehicleData :=
  ⟨⟨"Disconnected", .null, false⟩, ⟨false⟩, ⟨true⟩, ⟨some "R", 0, 0⟩⟩

/-- C4: the poll scheduler checks rule 1 before rule 2: every snapshot
that is unlocked with shift state nil, Park or Reverse and a closed
charge port gets the active delay, even when a rule 2 condition also
holds; in particular unlocked, Reverse, port closed and climate on
gets the active delay, which is shorter than the drive delay. -/
theorem c4_scheduler_rule1_first :
    (∀ data : VehicleData,
        data.vehicleState.locked = false →
        (data.driveState.shiftState = none ∨ data.driveState.shiftState = some "P"
          ∨ data.driveState.shiftState = some "R") →
        data.chargeState.chargePortDoorOpen = false →
        pollTime data = activePollTime)
    ∧ pollTime reverseClimateSnap = activePollTime
    ∧ pollTime reverseClimateSnap ≠ drivePollTime
    ∧ activePollTime < drivePollTime ∧ drivePollTime < standbyPollTime := by
  refine ⟨?_, by decide, by decide, by decide, by decide⟩
  intro data h1 h2 h3
  unfold pollTime
  rcases h2 with h2 | h2 | h2 <;> simp [h1, h2, h3]

/-- Witness for C4 at the snapshot with unlocked, Reverse, port closed
and climate on. -/
theorem c4_witness :
    reverseClimateSnap.vehicleState.locked = false
    ∧ reverseClimateSnap.driveState.shiftState = some "R"
    ∧ reverseClimateSnap.chargeState.chargePortDoorOpen = false
    ∧ reverseClimateSnap.climateState.isClimateOn = true
    ∧ pollTime reverseClimateSnap = activePollTime :=
  ⟨rfl, rfl, rfl, rfl,
    c4_scheduler_rule1_first.1 reverseClimateSnap rfl (Or.inr (Or.inr rfl)) rfl⟩

/-! ## Claim C5: the normalizer -/

theorem processCounter_count_eq_length (v : JsonValue) :
    ∀ key, (processCounter key v).2 = (processCounter key v).1.length :=
  @JsonValue.rec
    (fun v => ∀ key, (processCounter key v).2 = (processCounter key v).1.length)
    (fun fs => ∀ key, (processFields key fs).2 = (processFields key fs).1.length)
    (fun fields ih key => by simpa [processCounter] using ih key)
    (fun q key => by simp [processCounter])
    (fun b key => by cases b <;> simp [processCounter])
    (fun s key => by
      simp only [processCounter]
      cases hp : parseFloat? s with
      | some f => simp
      | none =>
        cases hc : counterStrs s with
        | some f => simp
        | none => simp)
    (fun key => by simp [processCounter])
    (fun key => by simp [processFields])
    (fun k val rest ih1 ih2 key => by simp [processFields, ih1, ih2])
    v

/-- C5: the normalizer emits one gauge entry per numerically
resolvable leaf and its returned count equals the number of entries
emitted; numbers map directly, booleans to 1 and 0, null to 0; a
string leaf is first parsed as a number, otherwise resolved through
the symbolic table, and an unresolvable string emits nothing and
counts 0; nested mappings recurse with colon-joined path keys; the
string DRIVE resolves to 2 and the string dash-dash to -1. -/
theorem c5_normalizer_leaves :
    (∀ (key : String) (v : JsonValue),
        (processCounter key v).2 = (processCounter key v).1.length)
    ∧ (∀ (key : String) (q : Rat), processCounter key (.num q) = ([(key, q)], 1))
    ∧ (∀ key : String, processCounter key (.bool true) = ([(key, 1)], 1))
    ∧ (∀ key : String, processCounter key (.bool false) = ([(key, 0)], 1))
    ∧ (∀ key : String, processCounter key .null = ([(key, 0)], 1))
    ∧ (∀ (key s : String) (q : Rat), parseFloat? s = some q →
        processCounter key (.str s) = ([(key, q)], 1))
    ∧ (∀ (key s : String) (q : Rat), parseFloat? s = none → counterStrs s = some q →
        processCounter key (.str s) = ([(key, q)], 1))
    ∧ (∀ key s : String, parseFloat? s = none → counterStrs s = none →
        processCounter key (.str s) = ([], 0))
    ∧ (∀ (key k : String) (v : JsonValue) (rest : JsonFields),
        processCounter key (.obj (.cons k v rest))
          = ((processCounter (key ++ ":" ++ k) v).1 ++ (processFields key rest).1,
            (processCounter (key ++ ":" ++ k) v).2 + (processFields key rest).2))
    ∧ processCounter "tesla" (.str "DRIVE") = ([("tesla", 2)], 1)
    ∧ processCounter "tesla" (.str "--") = ([("tesla", -1)], 1) := by
  refine ⟨fun key v => processCounter_count_eq_length v key,
    fun key q => rfl, fun key => rfl, fun key => rfl, fun key => rfl,
    ?_, ?_, ?_, fun key k v rest => rfl, by decide, by decide⟩
  · intro key s q hp
    simp [processCounter, hp]
  · intro key s q hp hc
    simp [processCounter, hp, hc]
  · intro key s hp hc
    simp [processCounter, hp, hc]

/-- Witness for C5 at the strings 3.5 (numeric), DRIVE (symbolic) and
zzz (unresolvable). -/
theorem c5_witness :
    parseFloat? "3.5" = some (7 / 2)
    ∧ processCounter "tesla" (.str "3.5") = ([("tesla", 7 / 2)], 1)
    ∧ parseFloat? "DRIVE" = none
    ∧ counterStrs "DRIVE" = some 2
    ∧ processCounter "tesla" (.str "DRIVE") = ([("tesla", 2)], 1)
    ∧ parseFloat? "zzz" = none
    ∧ counterStrs "zzz" = none
    ∧ processCounter "tesla" (.str "zzz") = ([], 0) :=
  ⟨by with_unfolding_all decide,
    c5_normalizer_leaves.2.2.2.2.2.1 "tesla" "3.5" (7 / 2) (by with_unfolding_all decide),
    by decide, by decide,
    c5_normalizer_leaves.2.2.2.2.2.2.1 "tesla" "DRIVE" 2 (by decide) (by decide),
    by decide, by decide,
    c5_normalizer_leaves.2.2.2.2.2.2.2.1 "tesla" "zzz" (by decide) (by decide)⟩

/-! ## Claim C9: the metric registry -/

theorem countKey_setValue (gs : List (String × Rat)) (k key2 : String) (v : Rat) :
    countKey (setValue gs k v) key2 = countKey gs key2 := by
  induction gs with
  | nil => rfl
  | cons e rest ih =>
    obtain ⟨k0, w⟩ := e
    by_cases h : k0 == k <;> by_cases h2 : k0 == key2 <;>
      simp [setValue, countKey, h, h2] <;>
        simpa [countKey] using ih

theorem countKey_append (gs1 gs2 : List (String × Rat)) (key : String) :
    countKey (gs1 ++ gs2) key = countKey gs1 key + countKey gs2 key := by
  simp [countKey]

theorem not_contains_countKey (gs : List (String × Rat)) (key : String)
    (h : containsKey gs key = false) : countKey gs key = 0 := by
  induction gs with
  | nil => rfl
  | cons e rest ih =>
    obtain ⟨k0, w⟩ := e
    simp [containsKey] at h
    simp [countKey, h.1]
    simpa [countKey] using ih h.2

theorem contains_countKey_pos (gs : List (String × Rat)) (key : String)
    (h : containsKey gs key = true) : 0 < countKey gs key := by
  induction gs with
  | nil => simp [containsKey] at h
  | cons e rest ih =>
    obtain ⟨k0, w⟩ := e
    simp [containsKey] at h
    rcases h with h | h
    · simp [countKey, h]
    · by_cases h0 : k0 == key
      · simp [countKey, h0]
      · simp [countKey, h0]
        simpa [countKey] using ih h

theorem containsKey_setValue (gs : List (String × Rat)) (k key2 : String) (v : Rat) :
    containsKey (setValue gs k v) key2 = containsKey gs key2 := by
  induction gs with
  | nil => rfl
  | cons e rest ih =>
    obtain ⟨k0, w⟩ := e
    by_cases h : k0 == k <;> simp [setValue, containsKey, h, ih]

theorem containsKey_append (gs1 gs2 : List (String × Rat)) (key : String) :
    containsKey (gs1 ++ gs2) key = (containsKey gs1 key || containsKey gs2 key) := by
  induction gs1 with
  | nil => rfl
  | cons e rest ih =>
    obtain ⟨k0, w⟩ := e
    simp [containsKey, ih, Bool.or_assoc]

theorem lookup_setValue_contains (gs : List (String × Rat)) (k : String) (v : Rat)
    (h : containsKey gs k = true) : lookupGauge (setValue gs k v) k = some v := by
  induction gs with
  | nil => simp [containsKey] at h
  | cons e rest ih =>
    obtain ⟨k0, w⟩ := e
    simp [containsKey] at h
    by_cases h0 : k0 == k
    · simp [setValue, h0, lookupGauge]
    · rcases h with h | h
      · simp [h] at h0
      · simp [setValue, h0, lookupGauge, ih h]

theorem lookup_append_fresh (gs : List (String × Rat)) (k : String) (v : Rat)
    (h : containsKey gs k = false) : lookupGauge (gs ++ [(k, v)]) k = some v := by
  induction gs with
  | nil => simp [lookupGauge]
  | cons e rest ih =>
    obtain ⟨k0, w⟩ := e
    simp [containsKey] at h
    simp [lookupGauge, h.1, ih h.2]

theorem setValue_setValue (gs : List (String × Rat)) (k : String) (v : Rat) :
    setValue (setValue gs k v) k v = setValue gs k v := by
  induction gs with
  | nil => rfl
  | cons e rest ih =>
    obtain ⟨k0, w⟩ := e
    by_cases h : k0 == k <;> simp [setValue, h, ih]

theorem setValue_not_contains (gs : List (String × Rat)) (k : String) (v : Rat)
    (h : containsKey gs k = false) : setValue gs k v = gs := by
  induction gs with
  | nil => rfl
  | cons e rest ih =>
    obtain ⟨k0, w⟩ := e
    simp [containsKey] at h
    simp [setValue, h.1, ih h.2]

theorem setValue_append (gs1 gs2 : List (String × Rat)) (k : String) (v : Rat) :
    setValue (gs1 ++ gs2) k v = setValue gs1 k v ++ setValue gs2 k v := by
  induction gs1 with
  | nil => rfl
  | cons e rest ih =>
    obtain ⟨k0, w⟩ := e
    by_cases h : k0 == k <;> simp [setValue, h, ih]

/-- C9: setCounter creates exactly one gauge entry per distinct key no
matter how often it is called with that key (the entry count after a
set is the maximum of the previous count and one, hence one from
empty, and stable under further sets); it updates the entry in place
(a lookup after a set yields the value just set); and repeated sets of
the same value are observably idempotent.  The existence check and the
creation are a single atomic step of the model, as they are a single
critical section under the mutex in the source. -/
theorem c9_registry_set_invariants :
    (∀ (gauges : List (String × Rat)) (key : String) (v : Rat),
        countKey (setCounter gauges key v) key = max (countKey gauges key) 1)
    ∧ (∀ (gauges : List (String × Rat)) (key : String) (v w : Rat),
        countKey (setCounter (setCounter gauges key v) key w) key
          = countKey (setCounter gauges key v) key)
    ∧ (∀ (gauges : List (String × Rat)) (key : String) (v : Rat),
        lookupGauge (setCounter gauges key v) key = some v)
    ∧ (∀ (gauges : List (String × Rat)) (key : String) (v : Rat),
        setCounter (setCounter gauges key v) key v = setCounter gauges key v) := by
  have ha : ∀ (gauges : List (String × Rat)) (key : String) (v : Rat),
      countKey (setCounter gauges key v) key = max (countKey gauges key) 1 := by
    intro gs key v
    by_cases hc : containsKey gs key
    · have hpos := contains_countKey_pos gs key hc
      simp [setCounter, hc, countKey_setValue]
      omega
    · simp at hc
      rw [setCounter, if_neg (by simp [hc]), countKey_append,
        not_contains_countKey gs key hc]
      simp [countKey]
  refine ⟨ha, fun gs key v w => by rw [ha, ha]; omega, ?_, ?_⟩
  · intro gs key v
    by_cases hc : containsKey gs key
    · simp [setCounter, hc, lookup_setValue_contains gs key v hc]
    · simp at hc
      rw [setCounter, if_neg (by simp [hc])]
      exact lookup_append_fresh gs key v hc
  · intro gs key v
    by_cases hc : containsKey gs key
    · have h2 : containsKey (setValue gs key v) key = true := by
        rw [containsKey_setValue]; exact hc
      simp [setCounter, hc, h2, setValue_setValue]
    · simp at hc
      have hfirst : setCounter gs key v = gs ++ [(key, v)] := by
        rw [setCounter, if_neg (by simp [hc])]
      have h2 : containsKey (gs ++ [(key, v)]) key = true := by
        simp [containsKey_append, containsKey]
      rw [hfirst, setCounter, if_pos h2,
        setValue_append, setValue_not_contains gs key v hc]
      simp [setValue]

/-! ## Claim C6: the geofence matcher -/

theorem latLngDistance_self (a : LatLng) : latLngDistance a a = 0 := by
  unfold latLngDistance atan2
  norm_num [Real.sqrt_eq_zero]

/-- C6: the geofence matcher returns the first charger in registration
order whose distance from the position is within the threshold, and no
match when every charger is farther than the threshold; a position at
distance 0 from a registered charger (in particular a position exactly
at the coordinates of a ChargePoint charger, whose great-circle
distance to itself is 0) matches for any positive threshold. -/
theorem c6_geofence_first_within :
    (∀ (chargers : List Charger) (pos : LatLng) (threshold : ℝ),
        (∀ c ∈ chargers, ¬ (c.distanceInMeters pos < threshold)) →
        nearestWithin chargers pos threshold = none)
    ∧ (∀ (chargers : List Charger) (c : Charger) (pos : LatLng) (threshold : ℝ),
        c ∈ chargers → c.distanceInMeters pos = 0 → 0 < threshold →
        (nearestWithin chargers pos threshold).isSome = true)
    ∧ (∀ (chargers : List Charger) (pos : LatLng) (threshold : ℝ) (c : Charger),
        nearestWithin chargers pos threshold = some c →
        ∃ l1 l2, chargers = l1 ++ c :: l2
          ∧ (∀ c2 ∈ l1, ¬ (c2.distanceInMeters pos < threshold))
          ∧ c.distanceInMeters pos < threshold)
    ∧ (∀ cp : ChargePointCharger, cp.distanceInMeters cp.latlng = 0) := by
  refine ⟨?_, ?_, ?_, ?_⟩
  · intro chargers pos t h
    induction chargers with
    | nil => rfl
    | cons c0 rest ih =>
      rw [nearestWithin, if_neg (h c0 (by simp))]
      exact ih (fun c hc => h c (by simp [hc]))
  · intro chargers c pos t hmem h0 ht
    induction chargers with
    | nil => simp at hmem
    | cons c0 rest ih =>
      rw [nearestWithin]
      by_cases hd : c0.distanceInMeters pos < t
      · rw [if_pos hd]; rfl
      · rw [if_neg hd]
        rcases List.mem_cons.mp hmem with heq | hmem2
        · rw [heq] at h0
          exact absurd (by rw [h0]; exact ht) hd
        · exact ih hmem2
  · intro chargers pos t
    induction chargers with
    | nil => intro c h; simp [nearestWithin] at h
    | cons c0 rest ih =>
      intro c h
      rw [nearestWithin] at h
      by_cases hd : c0.distanceInMeters pos < t
      · rw [if_pos hd] at h
        obtain rfl : c0 = c := by injection h
        exact ⟨[], rest, rfl, by simp, hd⟩
      · rw [if_neg hd] at h
        obtain ⟨l1, l2, heq, hl1, hc⟩ := ih c h
        refine ⟨c0 :: l1, l2, by rw [heq, List.cons_append], ?_, hc⟩
        intro c2 hc2
        rcases List.mem_cons.mp hc2 with heq2 | h2
        · rw [heq2]; exact hd
        · exact hl1 c2 h2
  · intro cp
    unfold ChargePointCharger.distanceInMeters
    rw [latLngDistance_self]
    ring

/-- A charger whose distance method reports 25 meters everywhere. -/
noncomputable def farTestCharger : Charger := ⟨fun _ => 25, 42⟩

/-- A charger whose distance method reports 0 meters everywhere. -/
noncomputable def zeroTestCharger : Charger := ⟨fun _ => 0, 7⟩

/-- Witness for C6: a charger farther than the threshold is never
matched, a charger at distance 0 is matched by the 20 meter threshold
and is the first match, and the known ChargePoint charger is at
distance 0 from its own coordinates. -/
theorem c6_witness :
    nearestWithin [farTestCharger] ⟨0, 0⟩ 20 = none
    ∧ (nearestWithin [zeroTestCharger] ⟨0, 0⟩ 20).isSome = true
    ∧ (∃ l1 l2, ([zeroTestCharger] : List Charger) = l1 ++ zeroTestCharger :: l2
        ∧ (∀ c2 ∈ l1, ¬ (c2.distanceInMeters ⟨0, 0⟩ < 20))
        ∧ zeroTestCharger.distanceInMeters ⟨0, 0⟩ < 20)
    ∧ ChargePointCharger.distanceInMeters
        ⟨1947511, latLngFromDegrees 47.630007 (-122.133969)⟩
        (latLngFromDegrees 47.630007 (-122.133969)) = 0 := by
  refine ⟨c6_geofence_first_within.1 [farTestCharger] ⟨0, 0⟩ 20 ?_,
    c6_geofence_first_within.2.1 [zeroTestCharger] zeroTestCharger ⟨0, 0⟩ 20
      (by simp) (by simp [zeroTestCharger]) (by norm_num),
    c6_geofence_first_within.2.2.1 [zeroTestCharger] ⟨0, 0⟩ 20 zeroTestCharger ?_,
    c6_geofence_first_within.2.2.2
      ⟨1947511, latLngFromDegrees 47.630007 (-122.133969)⟩⟩
  · intro c hc
    simp at hc
    rw [hc]
    norm_num [farTestCharger]
  · rw [nearestWithin, if_pos (by norm_num [zeroTestCharger])]

/-! ## Claim C7: error propagation in the supervisor

The claim says a vehicle loop error does not bring down the
Supervisor.  In the source, monitorVehicle runs inside the same
errgroup as every other task of RiceLa.run: its error cancels the
shared context, every other loop stops at its next wait point, and
eg.Wait — the value RiceLa.run returns — is exactly that first error. -/

/-- Counterexample to C7 as stated: with one vehicle loop returning an
error and the remaining goroutines returning nil, the value RiceLa.run
returns is that error, not nil — the Supervisor does fail because of
the single vehicle loop error. -/
theorem c7_counterexample :
    supervisorResult [some "vehicle poll failed", none, none] = some "vehicle poll failed"
    ∧ ¬ (supervisorResult [some "vehicle poll failed", none, none] = none) := by
  decide

/-- An environment whose user status query fails. -/
def failEnv : TriggerEnv := ⟨.error "user status failed", fun _ _ => none, none⟩

/-- C7 amended: an unrecoverable error from a single vehicle loop
terminates that loop with that error and becomes the overall failure
of the Supervisor (the first non-nil goroutine result is what eg.Wait
returns), while the other loops are cancelled cooperatively: a loop
whose context is done returns nil rather than keep polling. -/
theorem c7_supervisor_error_propagation :
    (∀ (pre post : List (Option String)) (e : String),
        (∀ x ∈ pre, x = none) →
        supervisorResult (pre ++ some e :: post) = some e)
    ∧ (∀ (env : TriggerEnv) (s : MonitorState) (d : VehicleData)
        (rest : List VehicleData) (e : String),
        (monitorStep env s d).2.2 = some e →
        monitorLoopResult env s (d :: rest) = some e)
    ∧ (∀ (env : TriggerEnv) (s : MonitorState),
        monitorLoopResult env s [] = none) := by
  refine ⟨?_, ?_, fun env s => rfl⟩
  · intro pre post e h
    induction pre with
    | nil => rfl
    | cons x rest ih =>
      have hx : x = none := h x (by simp)
      subst hx
      simpa [supervisorResult, firstError] using ih (fun y hy => h y (by simp [hy]))
  · intro env s d rest e h
    simp [monitorLoopResult, h]

/-- Witness for the amended C7: a concrete failing loop among healthy
goroutines decides the supervisor result, and a cancelled loop ends
with nil. -/
theorem c7_witness :
    supervisorResult ([none] ++ some "boom" :: [none]) = some "boom"
    ∧ monitorLoopResult failEnv initialState [completeSnap] = some "user status failed"
    ∧ monitorLoopResult failEnv initialState [] = none :=
  ⟨c7_supervisor_error_propagation.1 [none] [none] "boom" (by simp),
    c7_supervisor_error_propagation.2.1 failEnv initialState completeSnap []
      "user status failed" (by decide),
    c7_supervisor_error_propagation.2.2 failEnv initialState⟩

/-! ## Claim C8: the retry executor and business rejections

The claim says definitive business rejections are returned immediately
without retry.  The backoff library does support that through
permanent errors, but no call site in this repository wraps any error
as permanent, so backoff.Retry retries business rejections like any
other error until the elapsed budget is exhausted. -/

/-- Counterexample to C8 as stated: with backoff budget for two
retries, an operation returning a definitive business rejection on
its first attempt is run three times, not returned after the single
first attempt. -/
theorem c8_counterexample :
    isBusinessRejection (CPOutcome.business 1 "driver" "rejected") = true
    ∧ (backoffRetry (fun _ => some (CPOutcome.business 1 "driver" "rejected")) 0 2).1 = 3
    ∧ ¬ ((backoffRetry
        (fun _ => some (CPOutcome.business 1 "driver" "rejected")) 0 2).1 = 1) := by
  decide

/-- C8 amended: the executor treats every error of the wrapped
operation as retryable, business rejections included: any error is
followed by a further attempt while backoff budget remains; a
successful attempt returns at once; and when every attempt errors the
whole budget is used and the last error is surfaced. -/
theorem c8_retries_all_errors :
    (∀ (op : Nat → Option CPOutcome) (attempt fuel : Nat) (e : CPOutcome),
        op attempt = some e →
        backoffRetry op attempt (fuel + 1) = backoffRetry op (attempt + 1) fuel)
    ∧ (∀ (op : Nat → Option CPOutcome) (attempt fuel : Nat),
        op attempt = none → backoffRetry op attempt fuel = (attempt + 1, none))
    ∧ (∀ (op : Nat → Option CPOutcome) (fuel attempt : Nat),
        (∀ n, (op n).isSome) →
        backoffRetry op attempt fuel = (attempt + fuel + 1, op (attempt + fuel))) := by
  refine ⟨?_, ?_, ?_⟩
  · intro op attempt fuel e h
    rw [backoffRetry]
    simp only [h, errIsPermanent, Bool.false_eq_true, if_false]
  · intro op attempt fuel h
    simp [backoffRetry, h]
  · intro op fuel
    induction fuel with
    | zero =>
      intro attempt h
      obtain ⟨e, he⟩ := Option.isSome_iff_exists.mp (h attempt)
      simp [backoffRetry, he, errIsPermanent]
    | succ f ih =>
      intro attempt h
      obtain ⟨e, he⟩ := Option.isSome_iff_exists.mp (h attempt)
      rw [backoffRetry]
      simp only [he, errIsPermanent, Bool.false_eq_true, if_false]
      rw [ih (attempt + 1) h]
      have harith : attempt + 1 + f = attempt + (f + 1) := by omega
      rw [harith]

/-- Witness for the amended C8 at a constantly rejecting operation and
at a constantly succeeding one. -/
theorem c8_witness :
    backoffRetry (fun _ => some (CPOutcome.business 1 "driver" "rejected")) 0 (1 + 1)
      = backoffRetry (fun _ => some (CPOutcome.business 1 "driver" "rejected")) 1 1
    ∧ backoffRetry (fun _ => none) 0 5 = (1, none)
    ∧ backoffRetry (fun _ => some (CPOutcome.business 1 "driver" "rejected")) 0 2
      = (3, some (CPOutcome.business 1 "driver" "rejected")) :=
  ⟨c8_retries_all_errors.1 (fun _ => some (CPOutcome.business 1 "driver" "rejected")) 0 1
      (CPOutcome.business 1 "driver" "rejected") rfl,
    c8_retries_all_errors.2.1 (fun _ => none) 0 5 rfl,
    c8_retries_all_errors.2.2 (fun _ => some (CPOutcome.business 1 "driver" "rejected")) 2 0
      (fun _ => rfl)⟩

end Ricela
